import Mathlib

/-!
Verification of the flash-plan engine of Tobatools (`src/app/widgets/flash_tab.py`).

The Python code is shallowly embedded: every external `fastboot` invocation is
mediated by an environment `Env` that maps the index of the invocation (the
number of protocol calls issued so far) and the argument list to an outcome
(process completed with an exit status and output, timed out, or raised another
exception).  Execution state `St` records the ordered trace of issued protocol
commands and the ordered log lines.  All functions are direct translations of
the corresponding Python methods of `FlashTab` / `_FlashWorker`.
-/

namespace Tobatools

/-- Python `needle in hay` on lists of characters, prefix test part. -/
def listIsPrefixOfChars : List Char → List Char → Bool
  | [], _ => true
  | _ :: _, [] => false
  | a :: as, b :: bs => a == b && listIsPrefixOfChars as bs

/-- Python `needle in hay` on lists of characters: contiguous-sublist test. -/
def listContainsSub (needle : List Char) : List Char → Bool
  | [] => listIsPrefixOfChars needle []
  | c :: rest => listIsPrefixOfChars needle (c :: rest) || listContainsSub needle (rest)

/-- Python `needle in hay` for strings (substring containment). -/
def strContains (hay needle : String) : Bool :=
  listContainsSub needle.data hay.data

/-- The ASCII whitespace characters stripped by Python's `str.strip()` and
split on by `str.split()`. -/
def pyIsSpace (c : Char) : Bool :=
  c == ' ' || c == '\t' || c == '\n' || c == '\r' || c == '\x0b' || c == '\x0c'

/-- Python `s.strip()`. -/
def pyStrip (s : String) : String :=
  ⟨(((s.data.dropWhile pyIsSpace).reverse.dropWhile pyIsSpace).reverse)⟩

/-- ASCII lower-casing of one character (Python `str.lower()` on the
identifiers and outputs handled here). -/
def charLower (c : Char) : Char :=
  if 'A' ≤ c ∧ c ≤ 'Z' then Char.ofNat (c.toNat + 32) else c

/-- Python `s.lower()`. -/
def pyLower (s : String) : String := ⟨s.data.map charLower⟩

/-- Python `s.startswith(p)`. -/
def pyStartsWith (s p : String) : Bool := listIsPrefixOfChars p.data s.data

/-- Python `s.endswith(p)`. -/
def pyEndsWith (s p : String) : Bool := listIsPrefixOfChars p.data.reverse s.data.reverse

/-- Python `s[n:]`. -/
def pyDrop (s : String) (n : Nat) : String := ⟨s.data.drop n⟩

/-- Python `s[:-n]` for `0 < n ≤ len(s)`. -/
def pyDropRight (s : String) (n : Nat) : String := ⟨s.data.take (s.data.length - n)⟩

/-- The whitespace splitter behind Python `s.split()` (no empty pieces).
`cur` accumulates the characters of the piece being read, in reverse. -/
def pySplitWsAux (cur : List Char) : List Char → List (List Char)
  | [] => if cur.isEmpty then [] else [cur.reverse]
  | c :: rest =>
      if pyIsSpace c then
        if cur.isEmpty then pySplitWsAux [] rest
        else cur.reverse :: pySplitWsAux [] rest
      else pySplitWsAux (c :: cur) rest

/-- Python `s.split()`: split on whitespace runs, dropping empty pieces. -/
def pySplitWs (s : String) : List String :=
  (pySplitWsAux [] s.data).map (fun l => ⟨l⟩)

/-- The single-character splitter behind Python `s.split(c)` (keeps empty
pieces). -/
def pySplitCharAux (sep : Char) (cur : List Char) : List Char → List (List Char)
  | [] => [cur.reverse]
  | c :: rest =>
      if c == sep then cur.reverse :: pySplitCharAux sep [] rest
      else pySplitCharAux sep (c :: cur) rest

/-- Python `s.split(c)` for a one-character separator (keeps empty pieces). -/
def pySplitChar (sep : Char) (s : String) : List String :=
  (pySplitCharAux sep [] s.data).map (fun l => ⟨l⟩)

/-- The character-list worker of `afterFirstColon`. -/
def afterCharColon : List Char → Option (List Char)
  | [] => none
  | c :: rest => if c == ':' then some rest else afterCharColon rest

/-- Python `s.split(":", 1)[1]` for a string containing a colon: everything
after the first colon (`""` when there is no colon). -/
def afterFirstColon (s : String) : String :=
  match afterCharColon s.data with
  | some rest => ⟨rest⟩
  | none => ""

/-- Python `line.split(":", 1)[-1]`: after the first colon when a colon is
present, the whole string otherwise. -/
def afterFirstColonOrSelf (s : String) : String :=
  match afterCharColon s.data with
  | some rest => ⟨rest⟩
  | none => s

/-- Python `", ".join(l)` (only used to build log lines). -/
def joinComma : List String → String
  | [] => ""
  | [x] => x
  | x :: rest => x ++ ", " ++ joinComma rest

/-- Outcome of one `subprocess.run` invocation of the fastboot binary:
the process completed (`exitOk` is `returncode == 0`, `output` its combined
stdout/stderr text), raised `TimeoutExpired`, or raised another exception. -/
inductive CmdOutcome where
  | completed (exitOk : Bool) (output : String)
  | timeout
  | failed
deriving DecidableEq

/-- The external device/OS: outcome of the `n`-th protocol invocation given
its argument list (the fastboot executable itself is omitted). -/
def Env := Nat → List String → CmdOutcome

/-- Execution state: ordered trace of issued protocol commands and log lines. -/
structure St where
  trace : List (List String)
  log : List String
deriving DecidableEq

/-- The state at the beginning of a run. -/
def St.init : St := ⟨[], []⟩

/-- `append_log` / `log_func`: emit one log line. -/
def appendLog (line : String) (st : St) : St :=
  { st with log := st.log ++ [line] }

/-- Issue one protocol command: records it in the trace and asks the
environment for its outcome. -/
def rawRun (env : Env) (args : List String) (st : St) : CmdOutcome × St :=
  (env st.trace.length args, { st with trace := st.trace ++ [args] })

/-- `_run_fastboot`'s per-line echo of the command output into the log. -/
def logOutputLines (output : String) (st : St) : St :=
  (pySplitChar '\n' output).foldl
    (fun s l => if pyStrip l ≠ "" then appendLog (pyStrip l) s else s) st

/-- `FlashTab._run_fastboot`: run a fastboot command, echo its output to the
log, and return `(returncode == 0, stripped output)`; a timeout or any other
exception is caught and reported as `(False, "")`. -/
def runFastboot (env : Env) (args : List String) (desc : String) (st : St) :
    (Bool × String) × St :=
  let (r, st1) := rawRun env args st
  match r with
  | .completed exitOk out =>
      let o := pyStrip out
      ((exitOk, o), logOutputLines o st1)
  | .timeout => ((false, ""), appendLog ("超时: " ++ desc) st1)
  | .failed => ((false, ""), appendLog "执行失败" st1)

/-- The mode that `FlashTab._device_mode` reports for a given outcome of
`fastboot getvar is-userspace`. -/
def modeOfOutcome : CmdOutcome → String
  | .completed _ out => if strContains (pyLower out) "yes" then "fastbootd" else "bootloader"
  | _ => "unknown"

/-- The argument list of the mode-detection probe. -/
def getvarUserspace : List String := ["getvar", "is-userspace"]

/-- `FlashTab._device_mode`: probe `getvar is-userspace`; `'yes'` in the
lowered output means `fastbootd`, otherwise `bootloader`; an exception means
`unknown`. -/
def deviceMode (env : Env) (st : St) : String × St :=
  let (r, st1) := rawRun env getvarUserspace st
  (modeOfOutcome r, st1)

/-- The polling loop of `FlashTab._ensure_mode`: up to `n` mode probes, one
per second, until the target mode is observed. -/
def pollMode (env : Env) (targetMode : String) : Nat → St → Bool × St
  | 0, st => (false, appendLog ("切换到 " ++ targetMode ++ " 超时") st)
  | n + 1, st =>
      let (m, st1) := deviceMode env st
      if m = targetMode then (true, appendLog ("已进入 " ++ targetMode ++ " 模式") st1)
      else pollMode env targetMode n st1

/-- The switch block that `FlashTab._ensure_mode` repeats for each of its two
targets: issue the reboot command and, when it succeeded, poll up to 10
times for the target mode. -/
def switchAndPoll (env : Env) (targetMode : String) (cmd : List String)
    (desc : String) (st : St) : Bool × St :=
  let ((success, _), st4) := runFastboot env cmd desc st
  if !success then (false, st4)
  else pollMode env targetMode 10 st4

/-- `FlashTab._ensure_mode`: succeed at once if the probed mode already equals
the target; otherwise issue the reboot command and poll up to 10 times. -/
def ensureMode (env : Env) (targetMode : String) (st : St) : Bool × St :=
  let (current, st1) := deviceMode env st
  if current = targetMode then (true, st1)
  else
    let st2 := appendLog ("当前模式: " ++ current ++ "，需要切换到: " ++ targetMode) st1
    if targetMode = "fastbootd" then
      switchAndPoll env "fastbootd" ["reboot", "fastboot"] "重启到 fastbootd"
        (appendLog "正在重启到 fastbootd..." st2)
    else if targetMode = "bootloader" then
      switchAndPoll env "bootloader" ["reboot", "bootloader"] "重启到 bootloader"
        (appendLog "正在重启到 bootloader..." st2)
    else (false, st2)

/-- The `[d.strip() for d in lst if d and d.strip()]` normalisation applied to
the declared device list before matching. -/
def pyFilterDevices (ds : List String) : List String :=
  (ds.filter (fun d => d ≠ "" && pyStrip d ≠ "")).map pyStrip

/-- The matching loop of `FlashTab._verify_devices`: accept on the first
declared identifier whose lowered form occurs in the lowered product output. -/
def verifyLoop (product : String) : List String → St → Bool × St
  | [], st => (false, appendLog "错误: 设备型号不匹配！" st)
  | e :: rest, st =>
      if strContains product (pyLower e) then
        (true, appendLog ("设备验证成功: " ++ e) st)
      else verifyLoop product rest st

/-- `FlashTab._verify_devices`: query `getvar product` and accept the plan if
any declared identifier is a case-insensitive substring of the output. -/
def verifyDevices (env : Env) (expectedDevices : List String) (st : St) : Bool × St :=
  let expected := pyFilterDevices expectedDevices
  let st1 := appendLog ("验证设备型号列表: " ++ joinComma expected) st
  let ((success, output), st2) := runFastboot env ["getvar", "product"] "获取设备型号" st1
  if !success then (false, appendLog "错误: 无法获取设备型号" st2)
  else verifyLoop (pyLower output) expected st2

/-- The image dictionary built by `FlashTab._scan_images`: a map from image
file name (lower-cased on scanning) to its path. -/
def Images := String → Option String

/-- The image dictionary of a directory with no usable `.img` files. -/
def noImages : Images := fun _ => none

/-- A one-file image dictionary. -/
def oneImage (key path : String) : Images :=
  fun k => if k = key then some path else none

/-- The pair of AVB-disabling fastboot flags. -/
def avbFlags : List String := ["--disable-verity", "--disable-verification"]

/-- The dual-slot loop of `FlashTab._flash_partition` for `_ab` tokens with
AVB disabled: the image is looked up per slot, and a failed slot write returns
`False` at once. -/
def flashAbAvbLoop (env : Env) (images : Images) (baseName : String) :
    List String → St → Bool × St
  | [], st => (true, st)
  | slot :: rest, st =>
      let slotPartition := baseName ++ "_" ++ slot
      let imgName := baseName ++ ".img"
      match images imgName with
      | none =>
          flashAbAvbLoop env images baseName rest
            (appendLog ("警告: 未找到 " ++ imgName ++ "，跳过") st)
      | some imgPath =>
          let ((success, _), st1) :=
            runFastboot env (avbFlags ++ ["flash", slotPartition, imgPath])
              ("刷写 " ++ slotPartition ++ " (禁用AVB)") st
          if !success then (false, st1)
          else flashAbAvbLoop env images baseName rest st1

/-- The dual-slot loop of `FlashTab._flash_partition` for `_ab` tokens without
AVB disabling: a failed slot write returns `False` at once. -/
def flashAbLoop (env : Env) (baseName imgPath : String) :
    List String → St → Bool × St
  | [], st => (true, st)
  | slot :: rest, st =>
      let slotPartition := baseName ++ "_" ++ slot
      let ((success, _), st1) :=
        runFastboot env ["flash", slotPartition, imgPath] ("刷写 " ++ slotPartition) st
      if !success then (false, st1)
      else flashAbLoop env baseName imgPath rest st1

/-- `FlashTab._flash_partition`: resolve the partition token's suffix, look up
the image, honour the keep-ROOT flag where the code does, and issue the flash
command(s). -/
def flashPartition (env : Env) (images : Images) (keepRoot : Bool)
    (partition : String) (disableAvb : Bool) (st : St) : Bool × St :=
  if pyEndsWith partition "_ab" then
    let baseName := pyDropRight partition 3
    if disableAvb then
      flashAbAvbLoop env images baseName ["a", "b"]
        (appendLog ("刷写 " ++ partition ++ " (禁用AVB)") st)
    else
      let imgName := baseName ++ ".img"
      match images imgName with
      | none => (true, appendLog ("警告: 未找到 " ++ imgName ++ "，跳过") st)
      | some imgPath =>
          if keepRoot ∧ baseName = "boot" then
            (true, appendLog ("跳过 " ++ partition ++ " (保留ROOT权限)") st)
          else
            flashAbLoop env baseName imgPath ["a", "b"] st
  else if pyEndsWith partition "_a" || pyEndsWith partition "_b" then
    let baseName := pyDropRight partition 2
    let imgName := baseName ++ ".img"
    match images imgName with
    | none => (true, appendLog ("警告: 未找到 " ++ imgName ++ "，跳过") st)
    | some imgPath =>
        if keepRoot ∧ baseName = "boot" then
          (true, appendLog ("跳过 " ++ partition ++ " (保留ROOT权限)") st)
        else if disableAvb then
          let ((success, _), st1) :=
            runFastboot env (avbFlags ++ ["flash", partition, imgPath])
              ("刷写 " ++ partition ++ " (禁用AVB)") st
          (success, st1)
        else
          let ((success, _), st1) :=
            runFastboot env ["flash", partition, imgPath] ("刷写 " ++ partition) st
          (success, st1)
  else
    let imgName := partition ++ ".img"
    match images imgName with
    | none => (true, appendLog ("警告: 未找到 " ++ imgName ++ "，跳过") st)
    | some imgPath =>
        if keepRoot ∧ partition = "boot" then
          (true, appendLog ("跳过 " ++ partition ++ " (保留ROOT权限)") st)
        else if disableAvb then
          let ((success, _), st1) :=
            runFastboot env (avbFlags ++ ["flash", partition, imgPath])
              ("刷写 " ++ partition ++ " (禁用AVB)") st
          (success, st1)
        else
          let ((success, _), st1) :=
            runFastboot env ["flash", partition, imgPath] ("刷写 " ++ partition) st
          (success, st1)

/-- The loop of `FlashTab._delete_logical_partition` over its five delete
targets; failures are logged and never propagated. -/
def delLoop (env : Env) : List String → St → St
  | [], st => st
  | target :: rest, st =>
      let ((success, output), st1) :=
        runFastboot env ["delete-logical-partition", target] ("删除 " ++ target) st
      let st2 :=
        if success then st1
        else if strContains (pyLower output) "not find" || strContains (pyLower output) "not exist" then
          appendLog ("提示: " ++ target ++ " 不存在，跳过（这不是错误）") st1
        else appendLog ("警告: 删除 " ++ target ++ " 失败，继续执行") st1
      delLoop env rest st2

/-- `FlashTab._delete_logical_partition`: delete the plain, `_a`, `_b`,
`_a-cow` and `_b-cow` variants of the partition, always returning `True`. -/
def deleteLogicalPartition (env : Env) (partition : String) (st : St) : Bool × St :=
  let targets := [partition, partition ++ "_a", partition ++ "_b",
    partition ++ "_a-cow", partition ++ "_b-cow"]
  (true, delLoop env targets (appendLog ("删除逻辑分区: " ++ partition) st))

/-- `FlashTab._create_logical_partition`. -/
def createLogicalPartition (env : Env) (partition size : String) (st : St) : Bool × St :=
  let st1 := appendLog ("创建逻辑分区: " ++ partition ++ " (" ++ size ++ ")") st
  let ((success, _), st2) :=
    runFastboot env ["create-logical-partition", partition, size] ("创建 " ++ partition) st1
  (success, st2)

/-- `FlashTab._set_active_slot`. -/
def setActiveSlot (env : Env) (slot : String) (st : St) : Bool × St :=
  let st1 := appendLog ("设置活动槽位: " ++ slot) st
  let ((success, _), st2) :=
    runFastboot env ["set_active", slot] ("设置活动槽位为 " ++ slot) st1
  let st3 :=
    if success then appendLog ("活动槽位已设置为: " ++ slot) st2
    else appendLog "警告: 设置活动槽位失败" st2
  (success, st3)

/-- `FlashTab._wipe_data`: erase `userdata`, erase `metadata`, run
`fastboot -w`, each best-effort, and return `True`. -/
def wipeData (env : Env) (st : St) : Bool × St :=
  let st1 := appendLog "执行数据清除 (wipe-data)" st
  let ((s1, _), st2) := runFastboot env ["erase", "userdata"] "清除 userdata" st1
  let st3 := if s1 then st2 else appendLog "警告: 清除 userdata 失败" st2
  let ((s2, _), st4) := runFastboot env ["erase", "metadata"] "清除 metadata" st3
  let st5 := if s2 then st4 else appendLog "警告: 清除 metadata 失败" st4
  let ((s3, _), st6) := runFastboot env ["-w"] "执行 fastboot -w" st5
  let st7 := if s3 then st6 else appendLog "警告: fastboot -w 失败" st6
  (true, appendLog "数据清除完成" st7)

/-- One step of a flash plan, the tagged variants built by
`FlashTab._parse_config` (`mode` / `reboot` / `set_slot` / `flash` /
`delete_logical` / `create_logical` dictionaries). -/
inductive Step where
  | modeSwitch (mode : String)
  | reboot (target : String)
  | setSlot (slot : String)
  | flash (partition : String) (disableAvb : Bool) (mode : Option String)
  | deleteLogical (partition : String) (mode : Option String)
  | createLogical (partition : String) (size : String) (mode : Option String)
deriving DecidableEq

/-- A parsed flash plan: declared device identifiers and ordered steps. -/
structure FlashPlan where
  devices : List String
  steps : List Step
deriving DecidableEq

/-- The parser's accumulator: devices and steps collected so far, plus the
current declared mode context. -/
structure PAcc where
  devices : List String
  steps : List Step
  curMode : Option String
deriving DecidableEq

/-- The `-`-directive branch of the line loop of `FlashTab._parse_config`.
`none` models the `IndexError` raised on a `-` line with no partition token
(caught by the surrounding `except`, so the whole parse yields no plan). -/
def processDash (acc : PAcc) (line : String) : Option PAcc :=
  match pySplitWs (pyDrop line 1) with
  | [] => none
  | partition :: args =>
      match args with
      | [] => some { acc with steps := acc.steps ++ [.flash partition false acc.curMode] }
      | a1 :: restArgs =>
          if a1 = "disable" then
            some { acc with steps := acc.steps ++ [.flash partition true acc.curMode] }
          else if a1 = "del" then
            some { acc with steps := acc.steps ++ [.deleteLogical partition acc.curMode] }
          else if a1 = "add" then
            match restArgs with
            | sz :: _ =>
                some { acc with steps := acc.steps ++ [.createLogical partition sz acc.curMode] }
            | [] => some acc
          else some acc

/-- The keyword branches of the line loop of `FlashTab._parse_config` (the
branches tried after the blank/comment and `device:` checks). -/
def processKeyword (acc : PAcc) (line : String) : Option PAcc :=
  if line = "bootloader" then
    some { acc with steps := acc.steps ++ [.modeSwitch "bootloader"], curMode := some "bootloader" }
  else if line = "fastbootd" then
    some { acc with steps := acc.steps ++ [.modeSwitch "fastbootd"], curMode := some "fastbootd" }
  else if line = "system" then some { acc with steps := acc.steps ++ [.reboot "system"] }
  else if line = "set-a" then some { acc with steps := acc.steps ++ [.setSlot "a"] }
  else if line = "set-b" then some { acc with steps := acc.steps ++ [.setSlot "b"] }
  else if line = "wipe-data" then some acc
  else if pyStartsWith line "-" then processDash acc line
  else some acc

/-- One iteration of the line loop of `FlashTab._parse_config`, applied to
the already-stripped line. -/
def processStripped (acc : PAcc) (line : String) : Option PAcc :=
  if line = "" ∨ pyStartsWith line "#" then some acc
  else if pyStartsWith line "device:" then
    if pyStrip (afterFirstColon line) ≠ "" then
      some { acc with devices := acc.devices ++ [pyStrip (afterFirstColon line)] }
    else some acc
  else processKeyword acc line

/-- One iteration of the line loop of `FlashTab._parse_config` (the line is
stripped first, as the Python loop does). -/
def processLine (acc : PAcc) (rawLine : String) : Option PAcc :=
  processStripped acc (pyStrip rawLine)

/-- The whole line loop of `FlashTab._parse_config`. -/
def processAll : List String → PAcc → Option PAcc
  | [], acc => some acc
  | l :: rest, acc =>
      match processLine acc l with
      | none => none
      | some acc1 => processAll rest acc1

/-- `FlashTab._parse_config` on the list of lines of the config file: run the
line loop and fail when no device identifier was collected. -/
def parseConfig (lines : List String) : Option FlashPlan :=
  match processAll lines ⟨[], [], none⟩ with
  | none => none
  | some acc => if acc.devices.isEmpty then none else some ⟨acc.devices, acc.steps⟩

/-- Outcome of the interactive-path executor `FlashTab._run_flash_plan`. -/
inductive RunOutcome where
  | completed
  | cancelled
  | verifyFailed
  | modeFailed (mode : String)
  | flashFailed (partition : String)
  | createFailed (partition : String)
deriving DecidableEq

/-- The step loop of `FlashTab._run_flash_plan`: `flashing i` is the value of
the cooperative `self._flashing` flag read at the top of iteration `i`. -/
def runStepsUI (env : Env) (images : Images) (keepRoot wipe : Bool)
    (flashing : Nat → Bool) : Nat → List Step → St → RunOutcome × St
  | _, [], st => (RunOutcome.completed, st)
  | i, step :: rest, st =>
      if flashing i = false then (RunOutcome.cancelled, appendLog "用户取消了刷机" st)
      else
        match step with
        | .modeSwitch m =>
            let (ok, st1) := ensureMode env m st
            if ok then runStepsUI env images keepRoot wipe flashing (i + 1) rest st1
            else (RunOutcome.modeFailed m, appendLog ("错误: 无法切换到 " ++ m ++ " 模式") st1)
        | .flash p avb _ =>
            let (ok, st1) := flashPartition env images keepRoot p avb st
            if ok then runStepsUI env images keepRoot wipe flashing (i + 1) rest st1
            else (RunOutcome.flashFailed p, appendLog ("错误: 刷写 " ++ p ++ " 失败") st1)
        | .deleteLogical p _ =>
            let (ok, st1) := deleteLogicalPartition env p st
            let st2 := if ok then st1 else appendLog ("警告: 删除逻辑分区 " ++ p ++ " 失败") st1
            runStepsUI env images keepRoot wipe flashing (i + 1) rest st2
        | .createLogical p sz _ =>
            let (ok, st1) := createLogicalPartition env p sz st
            if ok then runStepsUI env images keepRoot wipe flashing (i + 1) rest st1
            else (RunOutcome.createFailed p, appendLog ("错误: 创建逻辑分区 " ++ p ++ " 失败") st1)
        | .setSlot s =>
            let (ok, st1) := setActiveSlot env s st
            let st2 := if ok then st1 else appendLog ("警告: 设置活动槽位 " ++ s ++ " 失败，继续执行") st1
            runStepsUI env images keepRoot wipe flashing (i + 1) rest st2
        | .reboot target =>
            if target = "system" then
              let st1 := if wipe then (wipeData env st).2 else st
              let st2 := appendLog "正在重启到系统..." st1
              let (_, st3) := runFastboot env ["reboot"] "重启到系统" st2
              runStepsUI env images keepRoot wipe flashing (i + 1) rest
                (appendLog "刷机完成！设备正在重启..." st3)
            else runStepsUI env images keepRoot wipe flashing (i + 1) rest st

/-- The 50-character separator line logged around a run. -/
def eqBanner : String := String.mk (List.replicate 50 '=')

/-- `FlashTab._run_flash_plan` (the interactive executor): verify the device
identity and walk the step list, honouring the cooperative cancel flag. -/
def runFlashPlanUI (env : Env) (plan : FlashPlan) (images : Images)
    (keepRoot wipe : Bool) (flashing : Nat → Bool) (st : St) : RunOutcome × St :=
  let st1 := appendLog eqBanner (appendLog "开始执行刷机计划" (appendLog eqBanner st))
  let (ok, st2) := verifyDevices env plan.devices st1
  if !ok then (RunOutcome.verifyFailed, st2)
  else
    let (r, st3) := runStepsUI env images keepRoot wipe flashing 0 plan.steps st2
    match r with
    | .completed => (r, appendLog eqBanner (appendLog "刷机流程完成" (appendLog eqBanner st3)))
    | .cancelled => (r, appendLog eqBanner (appendLog "刷机流程完成" (appendLog eqBanner st3)))
    | _ => (r, st3)

/-- The countdown wait logs of the thread-path mode switch
(`for remaining in range(wait_seconds, 0, -1)`). -/
def countdownLogs : Nat → St → St
  | 0, st => st
  | n + 1, st => countdownLogs n (appendLog ("  等待设备重启... " ++ toString (n + 1) ++ " 秒") st)

/-- The `mode` step handler of `FlashTab._run_flash_plan_in_thread`: probe the
current mode, and when it differs from the target issue the reboot command
(all exceptions swallowed), wait a fixed countdown, and report success
unconditionally — there is no polling and no failure on this path. -/
def threadModeStep (env : Env) (targetMode : String) (st : St) : St :=
  let st0 := appendLog ("切换到 " ++ targetMode ++ " 模式") st
  let (current, st1) := deviceMode env st0
  if current = targetMode then appendLog ("  已在 " ++ targetMode ++ " 模式") st1
  else if targetMode = "fastbootd" then
    let st2 := appendLog "  正在重启到 fastbootd..." st1
    let (r, st3) := rawRun env ["reboot", "fastboot"] st2
    let st4 :=
      match r with
      | .completed _ _ => st3
      | .timeout => appendLog "  设备正在重启..." st3
      | .failed => appendLog "  重启命令执行异常" st3
    appendLog "  ✅ 已切换到 fastbootd 模式" (countdownLogs 15 st4)
  else if targetMode = "bootloader" then
    let st2 := appendLog "  正在重启到 bootloader..." st1
    let (r, st3) := rawRun env ["reboot-bootloader"] st2
    let st4 :=
      match r with
      | .completed _ _ => st3
      | .timeout => appendLog "  设备正在重启..." st3
      | .failed => appendLog "  重启命令执行异常" st3
    appendLog "  ✅ 已切换到 bootloader 模式" (countdownLogs 10 st4)
  else st1

/-- One slot (or single-partition) flash attempt of the thread-path executor:
a non-zero exit or a timeout is logged and tolerated, while any other
exception propagates (`false` = exception raised, ending the run). -/
def threadFlashOne (env : Env) (cmd : List String) (label pfx : String) (st : St) : Bool × St :=
  let (r, st1) := rawRun env cmd st
  match r with
  | .completed exitOk _ =>
      if exitOk then (true, appendLog (pfx ++ "✅ " ++ label ++ " 刷写成功") st1)
      else (true, appendLog (pfx ++ "❌ " ++ label ++ " 刷写失败，继续执行") st1)
  | .timeout => (true, appendLog (pfx ++ "❌ " ++ label ++ " 刷写超时，继续执行") st1)
  | .failed => (false, st1)

/-- The `flash` step handler of `FlashTab._run_flash_plan_in_thread`: resolve
the suffix, look up the image under the lower-cased name, skip when absent,
and otherwise flash one or both slots, tolerating failed and timed-out
writes. -/
def threadFlashStep (env : Env) (images : Images) (partition : String)
    (disableAvb : Bool) (st : St) : Bool × St :=
  let st0 := appendLog ("刷写 " ++ partition) st
  let basePartition :=
    if pyEndsWith partition "_ab" then pyDropRight partition 3
    else if pyEndsWith partition "_a" || pyEndsWith partition "_b" then pyDropRight partition 2
    else partition
  let isAb := pyEndsWith partition "_ab"
  let imgName := basePartition ++ ".img"
  match images (pyLower imgName) with
  | none => (true, appendLog ("警告: 未找到 " ++ imgName ++ "，跳过") st0)
  | some imgPath =>
      if isAb then
        let cmdA := ["flash", basePartition ++ "_a", imgPath] ++ (if disableAvb then avbFlags else [])
        match threadFlashOne env cmdA (basePartition ++ "_a") "  " st0 with
        | (false, st1) => (false, st1)
        | (true, st1) =>
            let cmdB := ["flash", basePartition ++ "_b", imgPath] ++ (if disableAvb then avbFlags else [])
            threadFlashOne env cmdB (basePartition ++ "_b") "  " st1
      else
        threadFlashOne env (["flash", partition, imgPath] ++ (if disableAvb then avbFlags else []))
          partition "" st0

/-- Outcome of the thread-path executor: the step loop ran to the end, or an
unhandled exception unwound out of `_run_flash_plan_in_thread`. -/
inductive TOut where
  | done
  | exn
deriving DecidableEq

/-- One best-effort erase/format sub-step of the thread-path wipe sequence:
a timeout is logged and tolerated, any other exception propagates. -/
def threadWipeOne (env : Env) (cmd : List String) (okMsg toMsg : String) (st : St) : Bool × St :=
  let (r, st1) := rawRun env cmd st
  match r with
  | .completed _ _ => (true, appendLog okMsg st1)
  | .timeout => (true, appendLog toMsg st1)
  | .failed => (false, st1)

/-- The step loop of `FlashTab._run_flash_plan_in_thread`.  Note that it
consults no cancel flag and that `mode` and `flash` steps never abort it;
only unhandled exceptions on unguarded protocol calls end it early. -/
def runStepsThread (env : Env) (images : Images) (wipe : Bool) :
    List Step → St → TOut × St
  | [], st => (TOut.done, st)
  | step :: rest, st =>
      match step with
      | .modeSwitch m => runStepsThread env images wipe rest (threadModeStep env m st)
      | .flash p avb _ =>
          match threadFlashStep env images p avb st with
          | (false, st1) => (TOut.exn, st1)
          | (true, st1) => runStepsThread env images wipe rest st1
      | .deleteLogical p _ =>
          let st0 := appendLog ("删除逻辑分区 " ++ p) st
          let (r, st1) := rawRun env ["delete-logical-partition", p] st0
          match r with
          | .completed _ _ => runStepsThread env images wipe rest st1
          | _ => (TOut.exn, st1)
      | .createLogical p sz _ =>
          let st0 := appendLog ("创建逻辑分区 " ++ p ++ " (" ++ sz ++ ")") st
          let (r, st1) := rawRun env ["create-logical-partition", p, sz] st0
          match r with
          | .completed exitOk _ =>
              let st2 :=
                if exitOk then appendLog ("✅ 逻辑分区 " ++ p ++ " 创建成功") st1
                else appendLog ("❌ 逻辑分区 " ++ p ++ " 创建失败，继续执行") st1
              runStepsThread env images wipe rest st2
          | .timeout =>
              runStepsThread env images wipe rest
                (appendLog ("❌ 逻辑分区 " ++ p ++ " 创建超时，继续执行") st1)
          | .failed => (TOut.exn, st1)
      | .setSlot s =>
          let st0 := appendLog ("设置活动槽位 " ++ s) st
          let (r, st1) := rawRun env ["set_active", s] st0
          match r with
          | .completed _ _ => runStepsThread env images wipe rest st1
          | _ => (TOut.exn, st1)
      | .reboot target =>
          if target = "bootloader" then
            let st0 := appendLog "重启到 bootloader" st
            let (r, st1) := rawRun env ["reboot-bootloader"] st0
            match r with
            | .completed _ _ =>
                runStepsThread env images wipe rest
                  (appendLog "  ✅ 设备已重启" (appendLog "  等待设备重启到 bootloader..." st1))
            | .timeout =>
                runStepsThread env images wipe rest
                  (appendLog "  ✅ 设备已重启"
                    (appendLog "  等待设备重启到 bootloader..." (appendLog "  设备正在重启..." st1)))
            | .failed => (TOut.exn, st1)
          else if target = "system" then
            let wiped :=
              if wipe then
                let stw := appendLog "  正在清除 userdata（大分区，请耐心等待）..."
                  (appendLog "清除数据 (出厂重置)" st)
                match threadWipeOne env ["erase", "userdata"]
                    "  ✅ userdata 清除成功" "  ⚠️ userdata 清除超时，跳过" stw with
                | (false, st1) => (false, st1)
                | (true, st1) =>
                    let st2 := appendLog "  正在清除 metadata..." st1
                    match threadWipeOne env ["erase", "metadata"]
                        "  ✅ metadata 清除成功" "  ⚠️ metadata 清除超时，跳过" st2 with
                    | (false, st3) => (false, st3)
                    | (true, st3) =>
                        let st4 := appendLog "  执行 fastboot -w（格式化数据分区）..." st3
                        match threadWipeOne env ["-w"]
                            "  ✅ fastboot -w 执行成功" "  ⚠️ fastboot -w 超时，跳过" st4 with
                        | (false, st5) => (false, st5)
                        | (true, st5) => (true, appendLog "  ✅ 数据清除流程完成" st5)
              else (true, st)
            match wiped with
            | (false, st1) => (TOut.exn, st1)
            | (true, st1) =>
                let st2 := appendLog "重启到系统" st1
                let (r, st3) := rawRun env ["reboot"] st2
                match r with
                | .completed _ _ => runStepsThread env images wipe rest st3
                | _ => (TOut.exn, st3)
          else runStepsThread env images wipe rest st

/-- The extraction of the reported product value in the thread-path identity
check: the first output line containing `product:`, taken after its first
colon and stripped. -/
def extractProductLoop : List String → String
  | [] => ""
  | line :: rest =>
      if strContains line "product:" then pyStrip (afterFirstColonOrSelf line)
      else extractProductLoop rest

/-- `device_product` as computed by `_run_flash_plan_in_thread` from the
(lower-cased) `getvar product` output. -/
def extractProduct (loweredOutput : String) : String :=
  extractProductLoop (pySplitChar '\n' loweredOutput)

/-- `FlashTab._run_flash_plan_in_thread`: inline identity verification (an
identity mismatch raises, ending the run before any step), then the thread
step loop. -/
def runFlashPlanThread (env : Env) (plan : FlashPlan) (images : Images)
    (wipe : Bool) (st : St) : TOut × St :=
  let st1 := appendLog eqBanner (appendLog "开始执行刷机计划" (appendLog eqBanner st))
  let (r, st2) := rawRun env ["getvar", "product"] st1
  match r with
  | .completed _ out =>
      let deviceProduct := extractProduct (pyLower out)
      let expected := pyFilterDevices plan.devices
      if expected.isEmpty then (TOut.exn, appendLog "❌ 设备验证失败: 配置文件缺少 device: 字段" st2)
      else if expected.any (fun d => strContains deviceProduct (pyLower d)) then
        runStepsThread env images wipe plan.steps
          (appendLog ("设备验证成功: " ++ deviceProduct) st2)
      else (TOut.exn, appendLog "❌ 设备验证失败: 设备型号不匹配" st2)
  | _ => (TOut.exn, appendLog "❌ 设备验证失败" st2)

/-- `_FlashWorker.run` for the scattered-image mode once the plan is parsed:
the worker's `_cancelled` flag (set by `_FlashWorker.cancel`) is never read
anywhere on this path, so it is an unused argument. -/
def runWorker (_cancelled : Bool) (env : Env) (plan : FlashPlan) (images : Images)
    (wipe : Bool) (st : St) : TOut × St :=
  runFlashPlanThread env plan images wipe st

/-- Whether an invocation outcome counts as success for `_run_fastboot`
(`returncode == 0` and no exception). -/
def outcomeOk : CmdOutcome → Bool
  | .completed exitOk _ => exitOk
  | _ => false

/-- The output string `_run_fastboot` reports for an invocation outcome. -/
def outcomeOut : CmdOutcome → String
  | .completed _ out => pyStrip out
  | _ => ""

/-- Whether an invocation outcome avoids the uncaught-exception path of the
thread-path flash handler (which catches only `TimeoutExpired`). -/
def outcomeNotFailed : CmdOutcome → Bool
  | .failed => false
  | _ => true

/-- The base partition name obtained from a token by stripping a trailing
`_ab`, `_a` or `_b`, as both executors compute it. -/
def pyBase (partition : String) : String :=
  if pyEndsWith partition "_ab" then pyDropRight partition 3
  else if pyEndsWith partition "_a" || pyEndsWith partition "_b" then pyDropRight partition 2
  else partition

/-- The reboot command `_ensure_mode` issues for a given target mode. -/
def rebootCmdFor (target : String) : List String :=
  if target = "fastbootd" then ["reboot", "fastboot"] else ["reboot", "bootloader"]

/-- The reboot command the thread-path mode step issues for a given target
mode (it spells the bootloader reboot differently from `_ensure_mode`). -/
def threadRebootCmdFor (target : String) : List String :=
  if target = "fastbootd" then ["reboot", "fastboot"] else ["reboot-bootloader"]

/-- A device on which every invocation completes successfully with empty
output (so the mode probe always reports `bootloader`). -/
def envAllOk : Env := fun _ _ => CmdOutcome.completed true ""

/-- A device on which every invocation completes successfully with output
`"yes"` (so the mode probe always reports `fastbootd`). -/
def envYes : Env := fun _ _ => CmdOutcome.completed true "yes"

/-- A device on which every invocation completes with a non-zero exit status
and empty output. -/
def envAllFail : Env := fun _ _ => CmdOutcome.completed false ""

/-- A device whose first invocation reports product `x123` and whose later
invocations complete successfully. -/
def envProductX : Env := fun n _ =>
  if n = 0 then CmdOutcome.completed true "product: x123" else CmdOutcome.completed true ""

/-- An image directory holding exactly `vbmeta.img`. -/
def imgsVbmeta : Images := oneImage "vbmeta.img" "vbmeta.img"

/-- An image directory holding exactly `boot.img`. -/
def imgsBoot : Images := oneImage "boot.img" "boot.img"

/-- A `_flashing` flag that is never cleared (no cancellation requested). -/
def flagOn : Nat → Bool := fun _ => true

/-- A `_flashing` flag that is cleared before the first step (cancellation
requested before the loop is entered). -/
def flagOff : Nat → Bool := fun _ => false

/-- The device identifier a stripped config line contributes, if any: the
device branch of `_parse_config` adds the stripped text after `device:` when
it is non-blank. -/
def strippedAddsDevice (line : String) : Option String :=
  if line = "" ∨ pyStartsWith line "#" then none
  else if pyStartsWith line "device:" then
    if pyStrip (afterFirstColon line) ≠ "" then some (pyStrip (afterFirstColon line)) else none
  else none

/-- The device identifier a raw config line contributes, if any. -/
def lineAddsDevice (l : String) : Option String :=
  strippedAddsDevice (pyStrip l)

theorem appendLog_trace (l : String) (st : St) : (appendLog l st).trace = st.trace := rfl

theorem logOutputLines_trace (o : String) (st : St) :
    (logOutputLines o st).trace = st.trace := by
  unfold logOutputLines
  generalize pySplitChar '\n' o = ls
  induction ls generalizing st with
  | nil => rfl
  | cons x xs ih =>
      simp only [List.foldl_cons]
      split
      · exact ih (appendLog (pyStrip x) st)
      · exact ih st

theorem runFastboot_trace (env : Env) (args : List String) (desc : String) (st : St) :
    ((runFastboot env args desc st).2).trace = st.trace ++ [args] := by
  unfold runFastboot rawRun
  cases env st.trace.length args <;>
    simp [logOutputLines_trace, appendLog_trace]

theorem runFastboot_fst (env : Env) (args : List String) (desc : String) (st : St) :
    (runFastboot env args desc st).1 =
      (outcomeOk (env st.trace.length args), outcomeOut (env st.trace.length args)) := by
  unfold runFastboot rawRun
  cases env st.trace.length args <;> simp [outcomeOk, outcomeOut]

theorem deviceMode_eq (env : Env) (st : St) :
    deviceMode env st =
      (modeOfOutcome (env st.trace.length getvarUserspace),
        { st with trace := st.trace ++ [getvarUserspace] }) := rfl

theorem pollMode_timeout (env : Env) (target : String) :
    ∀ (n : Nat) (st : St),
      (∀ k, k < n → modeOfOutcome (env (st.trace.length + k) getvarUserspace) ≠ target) →
      (pollMode env target n st).1 = false ∧
        (pollMode env target n st).2.trace = st.trace ++ List.replicate n getvarUserspace
  | 0, st, _ => ⟨rfl, by simp [pollMode, appendLog_trace]⟩
  | n + 1, st, h => by
      have h0 : modeOfOutcome (env st.trace.length getvarUserspace) ≠ target := by
        simpa using h 0 (Nat.succ_pos n)
      have hrec := pollMode_timeout env target n { st with trace := st.trace ++ [getvarUserspace] }
        (by
          intro k hk
          have : st.trace.length + 1 + k = st.trace.length + (k + 1) := by omega
          simpa [this] using h (k + 1) (by omega))
      constructor
      · simpa [pollMode, deviceMode_eq, h0] using hrec.1
      · have := hrec.2
        simp only [List.length_append] at this
        simpa [pollMode, deviceMode_eq, h0, List.replicate_succ, List.append_assoc] using this

theorem runFastboot_eq (env : Env) (args : List String) (desc : String) (st : St) :
    runFastboot env args desc st =
      ((outcomeOk (env st.trace.length args), outcomeOut (env st.trace.length args)),
        (runFastboot env args desc st).2) :=
  Prod.ext (runFastboot_fst env args desc st) rfl

theorem delLoop_trace (env : Env) : ∀ (ts : List String) (st : St),
    (delLoop env ts st).trace = st.trace ++ ts.map (fun t => ["delete-logical-partition", t])
  | [], st => by simp [delLoop]
  | t :: ts, st => by
      simp only [delLoop]
      rw [runFastboot_eq]
      split
      · simp [delLoop_trace env ts, runFastboot_trace, appendLog_trace]
      · split <;> simp [delLoop_trace env ts, runFastboot_trace, appendLog_trace]

/-- C10: the UI-path delete of a logical partition issues delete commands for
the plain, `_a`, `_b`, `_a-cow` and `_b-cow` variants, in that order, and
reports success no matter how many of the five commands fail. -/
theorem C10_delete_logical_five_targets (env : Env) (p : String) (st : St) :
    (deleteLogicalPartition env p st).1 = true ∧
    (deleteLogicalPartition env p st).2.trace =
      st.trace ++ [["delete-logical-partition", p],
        ["delete-logical-partition", p ++ "_a"], ["delete-logical-partition", p ++ "_b"],
        ["delete-logical-partition", p ++ "_a-cow"], ["delete-logical-partition", p ++ "_b-cow"]] := by
  refine ⟨rfl, ?_⟩
  simp [deleteLogicalPartition, delLoop_trace, appendLog_trace]

/-- C7 counterexample: with the device already in the target mode
(`getvar is-userspace` answers `yes` and the target is `fastbootd`),
`_ensure_mode` succeeds at once, but the step is *not* observable as zero
protocol calls — the mode-detection query itself is a protocol call, so the
trace of the step is non-empty. -/
theorem C7_counterexample :
    (ensureMode envYes "fastbootd" St.init).1 = true ∧
    (ensureMode envYes "fastbootd" St.init).2.trace = [getvarUserspace] ∧
    (ensureMode envYes "fastbootd" St.init).2.trace ≠ [] := by decide

/-- C7 (amended): a `ModeSwitch` whose target equals the currently observed
mode performs no transition on either executor path: it succeeds immediately
and issues no reboot command, the only protocol call of the step being the
single mode-detection query. -/
theorem C7_mode_switch_idempotent (env : Env) (target : String) (st : St)
    (h : modeOfOutcome (env st.trace.length getvarUserspace) = target) :
    (ensureMode env target st).1 = true ∧
    (ensureMode env target st).2.trace = st.trace ++ [getvarUserspace] ∧
    (threadModeStep env target st).trace = st.trace ++ [getvarUserspace] := by
  refine ⟨?_, ?_, ?_⟩
  · simp [ensureMode, deviceMode_eq, h]
  · simp [ensureMode, deviceMode_eq, h]
  · simp [threadModeStep, deviceMode_eq, appendLog, h]

/-- C7 witness: the amended theorem applied to a device already reporting
`fastbootd`. -/
theorem C7_witness :
    modeOfOutcome (envYes St.init.trace.length getvarUserspace) = "fastbootd" ∧
    ((ensureMode envYes "fastbootd" St.init).1 = true ∧
      (ensureMode envYes "fastbootd" St.init).2.trace = St.init.trace ++ [getvarUserspace] ∧
      (threadModeStep envYes "fastbootd" St.init).trace = St.init.trace ++ [getvarUserspace]) :=
  ⟨by decide, C7_mode_switch_idempotent envYes "fastbootd" St.init (by decide)⟩

theorem switchAndPoll_timeout (env : Env) (target : String) (cmd : List String)
    (desc : String) (st : St)
    (h1 : outcomeOk (env st.trace.length cmd) = true)
    (h2 : ∀ k, k < 10 → modeOfOutcome (env (st.trace.length + 1 + k) getvarUserspace) ≠ target) :
    (switchAndPoll env target cmd desc st).1 = false ∧
    (switchAndPoll env target cmd desc st).2.trace =
      st.trace ++ [cmd] ++ List.replicate 10 getvarUserspace := by
  have hpoll := pollMode_timeout env target 10 (runFastboot env cmd desc st).2
    (by
      intro k hk
      have hlen : ((runFastboot env cmd desc st).2).trace.length = st.trace.length + 1 := by
        simp [runFastboot_trace]
      rw [hlen]
      exact h2 k hk)
  have hred : switchAndPoll env target cmd desc st =
      pollMode env target 10 (runFastboot env cmd desc st).2 := by
    simp only [switchAndPoll]
    rw [runFastboot_eq env cmd desc st, h1]
    simp
  rw [hred]
  refine ⟨hpoll.1, ?_⟩
  rw [hpoll.2, runFastboot_trace]

theorem ensureMode_timeout (env : Env) (target : String) (st : St)
    (htgt : target = "fastbootd" ∨ target = "bootloader")
    (h0 : modeOfOutcome (env st.trace.length getvarUserspace) ≠ target)
    (h1 : outcomeOk (env (st.trace.length + 1) (rebootCmdFor target)) = true)
    (h2 : ∀ k, k < 10 → modeOfOutcome (env (st.trace.length + 2 + k) getvarUserspace) ≠ target) :
    (ensureMode env target st).1 = false ∧
    (ensureMode env target st).2.trace =
      st.trace ++ [getvarUserspace, rebootCmdFor target] ++ List.replicate 10 getvarUserspace := by
  rcases htgt with h | h
  · subst h
    rw [show rebootCmdFor "fastbootd" = ["reboot", "fastboot"] from rfl] at h1 ⊢
    have hsw := switchAndPoll_timeout env "fastbootd" ["reboot", "fastboot"] "重启到 fastbootd"
      (appendLog "正在重启到 fastbootd..."
        (appendLog ("当前模式: " ++ modeOfOutcome (env st.trace.length getvarUserspace) ++
            "，需要切换到: " ++ "fastbootd")
          { st with trace := st.trace ++ [getvarUserspace] }))
      (by simpa [appendLog] using h1)
      (by
        intro k hk
        have e : st.trace.length + 1 + 1 + k = st.trace.length + 2 + k := by omega
        simpa [appendLog, e] using h2 k hk)
    simp only [ensureMode, deviceMode_eq, if_neg h0, if_true]
    refine ⟨hsw.1, ?_⟩
    rw [hsw.2]
    simp [appendLog, List.append_assoc]
  · subst h
    rw [show rebootCmdFor "bootloader" = ["reboot", "bootloader"] from rfl] at h1 ⊢
    have hsw := switchAndPoll_timeout env "bootloader" ["reboot", "bootloader"] "重启到 bootloader"
      (appendLog "正在重启到 bootloader..."
        (appendLog ("当前模式: " ++ modeOfOutcome (env st.trace.length getvarUserspace) ++
            "，需要切换到: " ++ "bootloader")
          { st with trace := st.trace ++ [getvarUserspace] }))
      (by simpa [appendLog] using h1)
      (by
        intro k hk
        have e : st.trace.length + 1 + 1 + k = st.trace.length + 2 + k := by omega
        simpa [appendLog, e] using h2 k hk)
    simp only [ensureMode, deviceMode_eq, if_neg h0,
      show ("bootloader" = "fastbootd") = False by simp, if_false, if_true]
    refine ⟨hsw.1, ?_⟩
    rw [hsw.2]
    simp [appendLog, List.append_assoc]

theorem countdownLogs_trace : ∀ (n : Nat) (st : St), (countdownLogs n st).trace = st.trace
  | 0, _ => rfl
  | n + 1, st => by rw [countdownLogs, countdownLogs_trace n]; rfl

theorem threadModeStep_trace (env : Env) (target : String) (st : St)
    (htgt : target = "fastbootd" ∨ target = "bootloader")
    (h0 : modeOfOutcome (env st.trace.length getvarUserspace) ≠ target) :
    (threadModeStep env target st).trace =
      st.trace ++ [getvarUserspace, threadRebootCmdFor target] := by
  rcases htgt with h | h
  · subst h
    simp only [threadModeStep, deviceMode_eq, rawRun, appendLog, if_neg h0, if_true,
      threadRebootCmdFor]
    split <;> simp [countdownLogs_trace, List.append_assoc]
  · subst h
    simp only [threadModeStep, deviceMode_eq, rawRun, appendLog, if_neg h0, if_true,
      show ("bootloader" = "fastbootd") = False by simp, if_false, threadRebootCmdFor]
    split <;> simp [countdownLogs_trace, List.append_assoc]

/-- C3 counterexample: in the threaded executor a `ModeSwitch` step neither
polls nor fails.  Here the device always reports `bootloader`, so the target
mode `fastbootd` is never observed, yet no per-second polling happens (only
the single probe and the reboot command appear in the trace), the run is not
reported as a timeout failure, and the remaining `set_active` step is still
dispatched. -/
theorem C3_counterexample :
    (runStepsThread envAllOk noImages false
      [Step.modeSwitch "fastbootd", Step.setSlot "a"] St.init).1 = TOut.done ∧
    (runStepsThread envAllOk noImages false
      [Step.modeSwitch "fastbootd", Step.setSlot "a"] St.init).2.trace =
      [getvarUserspace, ["reboot", "fastboot"], ["set_active", "a"]] := by decide

/-- C3 (amended): the interactive-path controller `_ensure_mode` behaves as
claimed — when the probed mode differs from the target it issues the reboot
command, polls once per second for up to 10 attempts, and on exhaustion the
transition fails and the executor aborts with `modeFailed`, dispatching none
of the remaining steps.  The threaded executor, however, performs no polling
for a mode step (its trace is exactly the probe and the reboot command) and
always continues with the remaining steps. -/
theorem C3_mode_transition_timeout (env : Env) (images : Images) (kr w : Bool)
    (fl : Nat → Bool) (i : Nat) (target : String) (rest : List Step) (st : St)
    (htgt : target = "fastbootd" ∨ target = "bootloader")
    (hfl : fl i = true)
    (h0 : modeOfOutcome (env st.trace.length getvarUserspace) ≠ target)
    (h1 : outcomeOk (env (st.trace.length + 1) (rebootCmdFor target)) = true)
    (h2 : ∀ k, k < 10 → modeOfOutcome (env (st.trace.length + 2 + k) getvarUserspace) ≠ target) :
    (ensureMode env target st).1 = false ∧
    (ensureMode env target st).2.trace =
      st.trace ++ [getvarUserspace, rebootCmdFor target] ++ List.replicate 10 getvarUserspace ∧
    (runStepsUI env images kr w fl i (Step.modeSwitch target :: rest) st).1 =
      RunOutcome.modeFailed target ∧
    (runStepsUI env images kr w fl i (Step.modeSwitch target :: rest) st).2.trace =
      st.trace ++ [getvarUserspace, rebootCmdFor target] ++ List.replicate 10 getvarUserspace ∧
    (threadModeStep env target st).trace =
      st.trace ++ [getvarUserspace, threadRebootCmdFor target] ∧
    runStepsThread env images w (Step.modeSwitch target :: rest) st =
      runStepsThread env images w rest (threadModeStep env target st) := by
  have hem := ensureMode_timeout env target st htgt h0 h1 h2
  have hth := threadModeStep_trace env target st htgt h0
  rcases hens : ensureMode env target st with ⟨ok, st1⟩
  have hok : ok = false := by
    have := hem.1
    rw [hens] at this
    exact this
  have hrun : runStepsUI env images kr w fl i (Step.modeSwitch target :: rest) st =
      (RunOutcome.modeFailed target, appendLog ("错误: 无法切换到 " ++ target ++ " 模式") st1) := by
    simp [runStepsUI, hfl, hens, hok]
  have htr1 : st1.trace =
      st.trace ++ [getvarUserspace, rebootCmdFor target] ++ List.replicate 10 getvarUserspace := by
    have := hem.2
    rw [hens] at this
    exact this
  refine ⟨hok, htr1, ?_, ?_, hth, rfl⟩
  · rw [hrun]
  · rw [hrun, appendLog_trace, htr1]

/-- C3 witness: the amended theorem applied to a device that always reports
`bootloader` while the plan asks for `fastbootd`. -/
theorem C3_witness :
    modeOfOutcome (envAllOk St.init.trace.length getvarUserspace) ≠ "fastbootd" ∧
    outcomeOk (envAllOk (St.init.trace.length + 1) (rebootCmdFor "fastbootd")) = true ∧
    ((ensureMode envAllOk "fastbootd" St.init).1 = false ∧
      (ensureMode envAllOk "fastbootd" St.init).2.trace =
        St.init.trace ++ [getvarUserspace, rebootCmdFor "fastbootd"] ++
          List.replicate 10 getvarUserspace ∧
      (runStepsUI envAllOk noImages false false flagOn 0
          (Step.modeSwitch "fastbootd" :: []) St.init).1 = RunOutcome.modeFailed "fastbootd" ∧
      (runStepsUI envAllOk noImages false false flagOn 0
          (Step.modeSwitch "fastbootd" :: []) St.init).2.trace =
        St.init.trace ++ [getvarUserspace, rebootCmdFor "fastbootd"] ++
          List.replicate 10 getvarUserspace ∧
      (threadModeStep envAllOk "fastbootd" St.init).trace =
        St.init.trace ++ [getvarUserspace, threadRebootCmdFor "fastbootd"] ∧
      runStepsThread envAllOk noImages false (Step.modeSwitch "fastbootd" :: []) St.init =
        runStepsThread envAllOk noImages false []
          (threadModeStep envAllOk "fastbootd" St.init)) :=
  ⟨by decide, by decide,
    C3_mode_transition_timeout envAllOk noImages false false flagOn 0 "fastbootd" [] St.init
      (Or.inl rfl) rfl (by decide) (by decide) (by decide)⟩

/-- C9 counterexample: the worker's cancel flag is set before the run (the
first argument of `runWorker` is `true`), yet the threaded executor still
starts and completes the `set_active` step — `_run_flash_plan_in_thread`
never reads `_FlashWorker._cancelled`, so cancellation does not take effect
between steps on this path. -/
theorem C9_counterexample :
    (runWorker true envProductX ⟨["x"], [Step.setSlot "a"]⟩ noImages false St.init).1 =
      TOut.done ∧
    (runWorker true envProductX ⟨["x"], [Step.setSlot "a"]⟩ noImages false St.init).2.trace =
      [["getvar", "product"], ["set_active", "a"]] := by decide

/-- C9 (amended): only the interactive executor `_run_flash_plan` checks its
cooperative cancel flag, at the top of every loop iteration: once the flag is
observed cleared, the loop stops with no further protocol command issued, so
cancellation takes effect between steps and never interrupts an issued step.
The threaded executor is independent of the worker's cancel flag: its run is
the same whatever the flag's value, so cancellation has no effect there. -/
theorem C9_cancel_checked_each_iteration (env : Env) (images : Images) (kr w : Bool)
    (fl : Nat → Bool) (i : Nat) (s : Step) (rest : List Step) (st : St)
    (c₁ c₂ : Bool) (plan : FlashPlan)
    (hfl : fl i = false) :
    runStepsUI env images kr w fl i (s :: rest) st =
      (RunOutcome.cancelled, appendLog "用户取消了刷机" st) ∧
    runWorker c₁ env plan images w st = runWorker c₂ env plan images w st := by
  constructor
  · simp [runStepsUI, hfl]
  · rfl

/-- C9 witness: the amended theorem applied with the flag cleared before the
first iteration. -/
theorem C9_witness :
    flagOff 0 = false ∧
    (runStepsUI envAllOk noImages false false flagOff 0 (Step.setSlot "a" :: []) St.init =
        (RunOutcome.cancelled, appendLog "用户取消了刷机" St.init) ∧
      runWorker true envAllOk ⟨["x"], []⟩ noImages false St.init =
        runWorker false envAllOk ⟨["x"], []⟩ noImages false St.init) :=
  ⟨rfl, C9_cancel_checked_each_iteration envAllOk noImages false false flagOff 0
    (Step.setSlot "a") [] St.init true false ⟨["x"], []⟩ rfl⟩

theorem processAll_ignore (l : String) (hIgn : ∀ acc, processLine acc l = some acc) :
    ∀ (pre post : List String) (acc : PAcc),
      processAll (pre ++ l :: post) acc = processAll (pre ++ post) acc
  | [], post, acc => by simp [processAll, hIgn acc]
  | x :: pre, post, acc => by
      simp only [List.cons_append, processAll]
      cases h : processLine acc x with
      | none => rfl
      | some a1 => exact processAll_ignore l hIgn pre post a1

/-- C2 counterexample: the line `garbage` is non-empty, is no comment and is
none of the recognized forms, yet the parser reports no error — it silently
ignores the line and still yields a plan. -/
theorem C2_counterexample :
    parseConfig ["device:foo", "garbage"] = some ⟨["foo"], []⟩ := by decide

/-- C2 (amended): a non-empty, non-comment line that is none of the
recognized forms (`device:`, `bootloader`, `fastbootd`, `system`, `set-a`,
`set-b`, `wipe-data`, or a `-`-prefixed directive) is silently ignored: it
leaves the parser state unchanged and the overall parse result is exactly as
if the line were absent, rather than failing closed. -/
theorem C2_unrecognized_line_ignored (acc : PAcc) (l : String) (pre post : List String)
    (h1 : pyStrip l ≠ "")
    (h2 : pyStartsWith (pyStrip l) "#" = false)
    (h3 : pyStartsWith (pyStrip l) "device:" = false)
    (h4 : pyStrip l ≠ "bootloader") (h5 : pyStrip l ≠ "fastbootd")
    (h6 : pyStrip l ≠ "system") (h7 : pyStrip l ≠ "set-a") (h8 : pyStrip l ≠ "set-b")
    (h9 : pyStrip l ≠ "wipe-data")
    (h10 : pyStartsWith (pyStrip l) "-" = false) :
    processLine acc l = some acc ∧
    parseConfig (pre ++ l :: post) = parseConfig (pre ++ post) := by
  have hIgn : ∀ acc', processLine acc' l = some acc' := by
    intro acc'
    simp [processLine, processStripped, processKeyword,
      h1, h2, h3, h4, h5, h6, h7, h8, h9, h10]
  refine ⟨hIgn acc, ?_⟩
  unfold parseConfig
  rw [processAll_ignore l hIgn pre post]

/-- C2 witness: the amended theorem applied to the line `garbage` inserted
after a `device:` line. -/
theorem C2_witness :
    (pyStrip "garbage" ≠ "" ∧ pyStartsWith (pyStrip "garbage") "#" = false ∧
      pyStartsWith (pyStrip "garbage") "device:" = false ∧
      pyStartsWith (pyStrip "garbage") "-" = false) ∧
    (processLine ⟨[], [], none⟩ "garbage" = some ⟨[], [], none⟩ ∧
      parseConfig (["device:foo"] ++ "garbage" :: []) = parseConfig (["device:foo"] ++ [])) :=
  ⟨⟨by decide, by decide, by decide, by decide⟩,
    C2_unrecognized_line_ignored ⟨[], [], none⟩ "garbage" ["device:foo"] []
      (by decide) (by decide) (by decide) (by decide) (by decide) (by decide)
      (by decide) (by decide) (by decide) (by decide)⟩

theorem processDash_devices (acc : PAcc) (line : String) (acc' : PAcc)
    (h : processDash acc line = some acc') : acc'.devices = acc.devices := by
  unfold processDash at h
  repeat' split at h
  all_goals try (exact Option.noConfusion h)
  all_goals injection h with h2
  all_goals subst h2
  all_goals rfl

theorem processKeyword_devices (acc : PAcc) (line : String) (acc' : PAcc)
    (h : processKeyword acc line = some acc') : acc'.devices = acc.devices := by
  unfold processKeyword at h
  repeat' split at h
  all_goals first
    | exact processDash_devices acc line acc' h
    | (injection h with h2; subst h2; rfl)

theorem processStripped_devices_spec (acc : PAcc) (line : String) (acc' : PAcc)
    (h : processStripped acc line = some acc') :
    acc'.devices = acc.devices ++ (strippedAddsDevice line).toList := by
  unfold processStripped at h
  unfold strippedAddsDevice
  repeat' split at h
  all_goals first
    | (rw [processKeyword_devices acc line acc' h]; simp_all)
    | (injection h with h2; subst h2; simp_all)

theorem processLine_devices_spec (acc : PAcc) (l : String) (acc' : PAcc)
    (h : processLine acc l = some acc') :
    acc'.devices = acc.devices ++ (lineAddsDevice l).toList :=
  processStripped_devices_spec acc (pyStrip l) acc' h

theorem processDash_isSome (acc : PAcc) (line : String)
    (hd : pySplitWs (pyDrop line 1) ≠ []) :
    (processDash acc line).isSome = true := by
  unfold processDash
  repeat' split
  all_goals simp_all

theorem processKeyword_isSome (acc : PAcc) (line : String)
    (hd : pyStartsWith line "-" = true → pySplitWs (pyDrop line 1) ≠ []) :
    (processKeyword acc line).isSome = true := by
  unfold processKeyword
  repeat' split
  all_goals try rfl
  all_goals simp_all [processDash_isSome]

theorem processStripped_isSome (acc : PAcc) (line : String)
    (hd : pyStartsWith line "-" = true → pySplitWs (pyDrop line 1) ≠ []) :
    (processStripped acc line).isSome = true := by
  unfold processStripped
  repeat' split
  all_goals first
    | rfl
    | exact processKeyword_isSome acc line hd

theorem processLine_isSome (acc : PAcc) (l : String)
    (hd : pyStartsWith (pyStrip l) "-" = true → pySplitWs (pyDrop (pyStrip l) 1) ≠ []) :
    (processLine acc l).isSome = true :=
  processStripped_isSome acc (pyStrip l) hd

theorem processAll_devices :
    ∀ (lines : List String) (acc acc' : PAcc), processAll lines acc = some acc' →
      acc'.devices = acc.devices ++ lines.filterMap lineAddsDevice
  | [], acc, acc', h => by
      simp only [processAll] at h
      injection h with h2
      subst h2
      simp
  | l :: rest, acc, acc', h => by
      simp only [processAll] at h
      cases hpl : processLine acc l with
      | none => rw [hpl] at h; exact Option.noConfusion h
      | some a1 =>
          rw [hpl] at h
          have hrest := processAll_devices rest a1 acc' h
          have hdev := processLine_devices_spec acc l a1 hpl
          rw [hrest, hdev, List.filterMap_cons]
          cases lineAddsDevice l <;> simp [List.append_assoc]

theorem processAll_isSome :
    ∀ (lines : List String) (acc : PAcc),
      (∀ l ∈ lines, pyStartsWith (pyStrip l) "-" = true → pySplitWs (pyDrop (pyStrip l) 1) ≠ []) →
      (processAll lines acc).isSome = true
  | [], _, _ => rfl
  | l :: rest, acc, h => by
      simp only [processAll]
      cases hpl : processLine acc l with
      | none =>
          have := processLine_isSome acc l (h l (by simp))
          rw [hpl] at this
          exact this
      | some a1 =>
          exact processAll_isSome rest a1 (fun x hx => h x (by simp [hx]))

/-- C6 counterexample: the config `device:foo` + `-` contains a `device:`
line with a non-blank identifier, yet parsing yields no plan — the bare `-`
line raises inside the line loop (`parts[0]` of an empty split) and the
surrounding `except` turns the whole parse into a failure. -/
theorem C6_counterexample :
    lineAddsDevice "device:foo" = some "foo" ∧
    parseConfig ["device:foo", "-"] = none := by decide

/-- C6 (amended): for every config whose `-` directives all carry a partition
token, parsing succeeds with a non-empty device list precisely when some line
contributes a device identifier; a config without any `device:<id>` line
(non-blank id) always fails to parse. -/
theorem C6_device_line_presence (lines : List String) :
    ((∃ l ∈ lines, lineAddsDevice l ≠ none) →
      (∀ l ∈ lines, pyStartsWith (pyStrip l) "-" = true →
        pySplitWs (pyDrop (pyStrip l) 1) ≠ []) →
      ∃ plan, parseConfig lines = some plan ∧ plan.devices ≠ []) ∧
    ((∀ l ∈ lines, lineAddsDevice l = none) → parseConfig lines = none) := by
  constructor
  · intro hdev hdash
    have hsome := processAll_isSome lines ⟨[], [], none⟩ hdash
    cases hpa : processAll lines ⟨[], [], none⟩ with
    | none => rw [hpa] at hsome; exact absurd hsome (by simp)
    | some acc' =>
        have hdevs := processAll_devices lines ⟨[], [], none⟩ acc' hpa
        have hne : acc'.devices ≠ [] := by
          rw [hdevs]
          simp only [List.nil_append]
          intro hcontra
          rw [List.filterMap_eq_nil_iff] at hcontra
          obtain ⟨l, hl, hnn⟩ := hdev
          exact hnn (hcontra l hl)
        refine ⟨⟨acc'.devices, acc'.steps⟩, ?_, hne⟩
        unfold parseConfig
        rw [hpa]
        simp [List.isEmpty_iff, hne]
  · intro hnone
    cases hpa : processAll lines ⟨[], [], none⟩ with
    | none => unfold parseConfig; rw [hpa]
    | some acc' =>
        have hdevs := processAll_devices lines ⟨[], [], none⟩ acc' hpa
        have hempty : acc'.devices = [] := by
          rw [hdevs]
          simp only [List.nil_append]
          exact List.filterMap_eq_nil_iff.mpr hnone
        unfold parseConfig
        rw [hpa]
        simp [List.isEmpty_iff, hempty]

/-- C6 witness: the amended theorem applied to a one-line config carrying a
device identifier, and to a one-line config carrying none. -/
theorem C6_witness :
    (∃ plan, parseConfig ["device:foo"] = some plan ∧ plan.devices ≠ []) ∧
    parseConfig ["-system"] = none :=
  ⟨(C6_device_line_presence ["device:foo"]).1
      ⟨"device:foo", by decide, by decide⟩ (by decide),
    (C6_device_line_presence ["-system"]).2 (by decide)⟩

theorem verifyLoop_fst (product : String) : ∀ (ds : List String) (st : St),
    (verifyLoop product ds st).1 = ds.any (fun e => strContains product (pyLower e))
  | [], st => by simp [verifyLoop]
  | e :: rest, st => by
      simp only [verifyLoop, List.any_cons]
      split <;> simp_all [verifyLoop_fst product rest]

theorem verifyLoop_trace (product : String) : ∀ (ds : List String) (st : St),
    (verifyLoop product ds st).2.trace = st.trace
  | [], st => by simp [verifyLoop, appendLog_trace]
  | e :: rest, st => by
      simp only [verifyLoop]
      split <;> simp [appendLog_trace, verifyLoop_trace product rest]

theorem verifyDevices_fst (env : Env) (ds : List String) (st : St) (rawOut : String)
    (h : env st.trace.length ["getvar", "product"] = CmdOutcome.completed true rawOut) :
    (verifyDevices env ds st).1 =
      (pyFilterDevices ds).any (fun d => strContains (pyLower (pyStrip rawOut)) (pyLower d)) := by
  unfold verifyDevices
  dsimp only
  rw [runFastboot_eq]
  simp only [appendLog_trace]
  rw [h]
  simp [outcomeOk, outcomeOut, verifyLoop_fst]

theorem verifyDevices_trace (env : Env) (ds : List String) (st : St) :
    (verifyDevices env ds st).2.trace = st.trace ++ [["getvar", "product"]] := by
  unfold verifyDevices
  dsimp only
  rw [runFastboot_eq]
  split <;>
    simp [verifyLoop_trace, runFastboot_trace, appendLog_trace]

/-- C5: the identity verifier accepts exactly when some declared identifier
(after the blank-filtering normalisation) is a case-insensitive substring of
the reported product output — the declared id is searched inside the reported
string, not the reverse — and on no match both executors abort having issued
only the single non-mutating `getvar product` query. -/
theorem C5_identity_substring_match (env : Env) (plan : FlashPlan) (images : Images)
    (kr w : Bool) (fl : Nat → Bool) (st : St) (rawOut : String)
    (h : env st.trace.length ["getvar", "product"] = CmdOutcome.completed true rawOut) :
    ((verifyDevices env plan.devices st).1 = true ↔
      ∃ d ∈ pyFilterDevices plan.devices,
        strContains (pyLower (pyStrip rawOut)) (pyLower d) = true) ∧
    ((¬ ∃ d ∈ pyFilterDevices plan.devices,
        strContains (pyLower (pyStrip rawOut)) (pyLower d) = true) →
      (runFlashPlanUI env plan images kr w fl st).1 = RunOutcome.verifyFailed ∧
      (runFlashPlanUI env plan images kr w fl st).2.trace =
        st.trace ++ [["getvar", "product"]]) ∧
    ((¬ ∃ d ∈ pyFilterDevices plan.devices,
        strContains (extractProduct (pyLower rawOut)) (pyLower d) = true) →
      (runFlashPlanThread env plan images w st).1 = TOut.exn ∧
      (runFlashPlanThread env plan images w st).2.trace =
        st.trace ++ [["getvar", "product"]]) := by
  refine ⟨?_, ?_, ?_⟩
  · rw [verifyDevices_fst env plan.devices st rawOut h]
    simp [List.any_eq_true]
  · intro hneg
    have hfst := verifyDevices_fst env plan.devices
      (appendLog eqBanner (appendLog "开始执行刷机计划" (appendLog eqBanner st))) rawOut
      (by simpa only [appendLog_trace] using h)
    have hany : (pyFilterDevices plan.devices).any
        (fun d => strContains (pyLower (pyStrip rawOut)) (pyLower d)) = false := by
      rw [← Bool.not_eq_true, List.any_eq_true]
      simpa using hneg
    rw [hany] at hfst
    unfold runFlashPlanUI
    rcases hv : verifyDevices env plan.devices
        (appendLog eqBanner (appendLog "开始执行刷机计划" (appendLog eqBanner st))) with ⟨ok, stv⟩
    have hok : ok = false := by rw [hv] at hfst; exact hfst
    subst hok
    have htr := verifyDevices_trace env plan.devices
      (appendLog eqBanner (appendLog "开始执行刷机计划" (appendLog eqBanner st)))
    rw [hv] at htr
    simp only [appendLog_trace] at htr
    simp [hv, htr]
  · intro hneg
    have hany : (pyFilterDevices plan.devices).any
        (fun d => strContains (extractProduct (pyLower rawOut)) (pyLower d)) = false := by
      rw [← Bool.not_eq_true, List.any_eq_true]
      simpa using hneg
    unfold runFlashPlanThread
    simp only [rawRun, appendLog_trace]
    rw [h]
    by_cases hemp : (pyFilterDevices plan.devices).isEmpty = true <;>
      simp [hemp, hany, appendLog_trace, appendLog]

/-- C5 witness: the theorem applied to a device reporting `product: x123`
with declared identifiers that do not occur in that string. -/
theorem C5_witness :
    envProductX St.init.trace.length ["getvar", "product"] =
      CmdOutcome.completed true "product: x123" ∧
    (((verifyDevices envProductX (FlashPlan.mk ["zz"] []).devices St.init).1 = true ↔
      ∃ d ∈ pyFilterDevices (FlashPlan.mk ["zz"] []).devices,
        strContains (pyLower (pyStrip "product: x123")) (pyLower d) = true) ∧
    ((¬ ∃ d ∈ pyFilterDevices (FlashPlan.mk ["zz"] []).devices,
        strContains (pyLower (pyStrip "product: x123")) (pyLower d) = true) →
      (runFlashPlanUI envProductX ⟨["zz"], []⟩ noImages false false flagOn St.init).1 =
        RunOutcome.verifyFailed ∧
      (runFlashPlanUI envProductX ⟨["zz"], []⟩ noImages false false flagOn St.init).2.trace =
        St.init.trace ++ [["getvar", "product"]]) ∧
    ((¬ ∃ d ∈ pyFilterDevices (FlashPlan.mk ["zz"] []).devices,
        strContains (extractProduct (pyLower "product: x123")) (pyLower d) = true) →
      (runFlashPlanThread envProductX ⟨["zz"], []⟩ noImages false St.init).1 = TOut.exn ∧
      (runFlashPlanThread envProductX ⟨["zz"], []⟩ noImages false St.init).2.trace =
        St.init.trace ++ [["getvar", "product"]])) :=
  ⟨by decide,
    C5_identity_substring_match envProductX ⟨["zz"], []⟩ noImages false false flagOn St.init
      "product: x123" (by decide)⟩

theorem flashPartition_missing (env : Env) (images : Images) (kr : Bool) (p : String)
    (avb : Bool) (st : St) (h1 : images (pyBase p ++ ".img") = none) :
    (flashPartition env images kr p avb st).1 = true ∧
    (flashPartition env images kr p avb st).2.trace = st.trace ∧
    ("警告: 未找到 " ++ (pyBase p ++ ".img") ++ "，跳过") ∈
      (flashPartition env images kr p avb st).2.log := by
  by_cases hab : pyEndsWith p "_ab" = true
  · have hbase : pyBase p = pyDropRight p 3 := by simp [pyBase, hab]
    rw [hbase] at h1 ⊢
    cases avb with
    | true =>
        simp only [flashPartition, hab, if_true]
        simp [flashAbAvbLoop, h1, appendLog]
    | false =>
        simp only [flashPartition, hab, if_true]
        simp [h1, appendLog]
  · by_cases hs : (pyEndsWith p "_a" || pyEndsWith p "_b") = true
    · have hbase : pyBase p = pyDropRight p 2 := by simp [pyBase, hab, hs]
      rw [hbase] at h1 ⊢
      simp only [flashPartition, hab, hs, if_true, Bool.false_eq_true, if_false]
      simp [h1, appendLog]
    · have hbase : pyBase p = p := by simp [pyBase, hab, hs]
      rw [hbase] at h1 ⊢
      simp only [flashPartition, hab, hs, Bool.false_eq_true, if_false]
      simp [h1, appendLog]

theorem threadFlashStep_missing (env : Env) (images : Images) (p : String)
    (avb : Bool) (st : St) (h2 : images (pyLower (pyBase p ++ ".img")) = none) :
    threadFlashStep env images p avb st =
      (true, appendLog ("警告: 未找到 " ++ (pyBase p ++ ".img") ++ "，跳过")
        (appendLog ("刷写 " ++ p) st)) := by
  by_cases hab : pyEndsWith p "_ab" = true
  · have hbase : pyBase p = pyDropRight p 3 := by simp [pyBase, hab]
    rw [hbase] at h2 ⊢
    simp only [threadFlashStep, hab, if_true]
    simp [h2]
  · by_cases hs : (pyEndsWith p "_a" || pyEndsWith p "_b") = true
    · have hbase : pyBase p = pyDropRight p 2 := by simp [pyBase, hab, hs]
      rw [hbase] at h2 ⊢
      simp only [threadFlashStep, hab, hs, if_true, Bool.false_eq_true, if_false]
      simp [h2]
    · have hbase : pyBase p = p := by simp [pyBase, hab, hs]
      rw [hbase] at h2 ⊢
      simp only [threadFlashStep, hab, hs, Bool.false_eq_true, if_false]
      simp [h2]

/-- C8: a `FlashPartition` step whose image `<base>.img` is absent from the
scanned image dictionary is skipped with a logged warning on both executor
paths: the step reports success, issues no protocol command at all, the
warning appears in the log, and each executor continues with the next step —
a missing image is never fatal to the plan. -/
theorem C8_missing_image_skipped (env : Env) (images : Images) (kr w : Bool)
    (fl : Nat → Bool) (i : Nat) (p : String) (avb : Bool) (m : Option String)
    (rest : List Step) (st : St)
    (hfl : fl i = true)
    (h1 : images (pyBase p ++ ".img") = none)
    (h2 : images (pyLower (pyBase p ++ ".img")) = none) :
    (flashPartition env images kr p avb st).1 = true ∧
    (flashPartition env images kr p avb st).2.trace = st.trace ∧
    ("警告: 未找到 " ++ (pyBase p ++ ".img") ++ "，跳过") ∈
      (flashPartition env images kr p avb st).2.log ∧
    runStepsUI env images kr w fl i (Step.flash p avb m :: rest) st =
      runStepsUI env images kr w fl (i + 1) rest (flashPartition env images kr p avb st).2 ∧
    (threadFlashStep env images p avb st).1 = true ∧
    (threadFlashStep env images p avb st).2.trace = st.trace ∧
    runStepsThread env images w (Step.flash p avb m :: rest) st =
      runStepsThread env images w rest (threadFlashStep env images p avb st).2 := by
  have hfp := flashPartition_missing env images kr p avb st h1
  have hts := threadFlashStep_missing env images p avb st h2
  refine ⟨hfp.1, hfp.2.1, hfp.2.2, ?_, ?_, ?_, ?_⟩
  · rcases hv : flashPartition env images kr p avb st with ⟨ok, st1⟩
    have hok : ok = true := by rw [hv] at hfp; exact hfp.1
    subst hok
    simp [runStepsUI, hfl, hv]
  · rw [hts]
  · rw [hts, appendLog_trace, appendLog_trace]
  · simp only [runStepsThread]
    rw [hts]

/-- C8 witness: the claim applied to the token `vendor_ab` with an image
directory not containing `vendor.img`. -/
theorem C8_witness :
    flagOn 0 = true ∧ noImages (pyBase "vendor_ab" ++ ".img") = none ∧
    ((flashPartition envAllOk noImages false "vendor_ab" false St.init).1 = true ∧
      (flashPartition envAllOk noImages false "vendor_ab" false St.init).2.trace =
        St.init.trace ∧
      ("警告: 未找到 " ++ (pyBase "vendor_ab" ++ ".img") ++ "，跳过") ∈
        (flashPartition envAllOk noImages false "vendor_ab" false St.init).2.log ∧
      runStepsUI envAllOk noImages false false flagOn 0
          (Step.flash "vendor_ab" false none :: [Step.setSlot "a"]) St.init =
        runStepsUI envAllOk noImages false false flagOn 1 [Step.setSlot "a"]
          (flashPartition envAllOk noImages false "vendor_ab" false St.init).2 ∧
      (threadFlashStep envAllOk noImages "vendor_ab" false St.init).1 = true ∧
      (threadFlashStep envAllOk noImages "vendor_ab" false St.init).2.trace = St.init.trace ∧
      runStepsThread envAllOk noImages false
          (Step.flash "vendor_ab" false none :: [Step.setSlot "a"]) St.init =
        runStepsThread envAllOk noImages false [Step.setSlot "a"]
          (threadFlashStep envAllOk noImages "vendor_ab" false St.init).2) :=
  ⟨rfl, rfl,
    C8_missing_image_skipped envAllOk noImages false false flagOn 0 "vendor_ab" false none
      [Step.setSlot "a"] St.init rfl rfl rfl⟩

/-- C4 counterexample: with the keep-ROOT flag set, the image `boot.img`
present and the token `boot_ab` flashed with AVB-disable, the UI-path
`_flash_partition` still issues both slot flash commands — the AVB-disable
dual-slot branch has no keep-ROOT check, so the `boot` write is not skipped. -/
theorem C4_counterexample :
    (flashPartition envAllOk imgsBoot true "boot_ab" true St.init).2.trace =
      [["--disable-verity", "--disable-verification", "flash", "boot_a", "boot.img"],
        ["--disable-verity", "--disable-verification", "flash", "boot_b", "boot.img"]] ∧
    (flashPartition envAllOk imgsBoot true "boot_ab" true St.init).1 = true := by decide

/-- C4 (amended): the keep-ROOT flag suppresses `boot` writes only in the
UI-path `_flash_partition` for the suffix forms none, `_a`, `_b` and `_ab`
without AVB-disable (in those branches nothing is flashed and the step
succeeds); the `_ab`-with-AVB-disable branch ignores the flag entirely — the
function behaves there exactly as with the flag cleared.  (The threaded
executor contains no keep-ROOT check at all.) -/
theorem C4_keep_root_scope (env : Env) (images : Images) (avb : Bool) (st : St)
    (p : String) (hp : pyEndsWith p "_ab" = true) :
    ((flashPartition env images true "boot" avb st).1 = true ∧
      (flashPartition env images true "boot" avb st).2.trace = st.trace) ∧
    ((flashPartition env images true "boot_a" avb st).1 = true ∧
      (flashPartition env images true "boot_a" avb st).2.trace = st.trace) ∧
    ((flashPartition env images true "boot_b" avb st).1 = true ∧
      (flashPartition env images true "boot_b" avb st).2.trace = st.trace) ∧
    ((flashPartition env images true "boot_ab" false st).1 = true ∧
      (flashPartition env images true "boot_ab" false st).2.trace = st.trace) ∧
    flashPartition env images true p true st = flashPartition env images false p true st := by
  refine ⟨?_, ?_, ?_, ?_, ?_⟩
  · simp only [flashPartition,
      show pyEndsWith "boot" "_ab" = false by decide,
      show (pyEndsWith "boot" "_a" || pyEndsWith "boot" "_b") = false by decide,
      Bool.false_eq_true, if_false]
    cases himg : images ("boot" ++ ".img") <;> simp [himg, appendLog]
  · simp only [flashPartition,
      show pyEndsWith "boot_a" "_ab" = false by decide,
      show (pyEndsWith "boot_a" "_a" || pyEndsWith "boot_a" "_b") = true by decide,
      show pyDropRight "boot_a" 2 = "boot" by decide,
      Bool.false_eq_true, if_false, if_true]
    cases himg : images ("boot" ++ ".img") <;> simp [himg, appendLog]
  · simp only [flashPartition,
      show pyEndsWith "boot_b" "_ab" = false by decide,
      show (pyEndsWith "boot_b" "_a" || pyEndsWith "boot_b" "_b") = true by decide,
      show pyDropRight "boot_b" 2 = "boot" by decide,
      Bool.false_eq_true, if_false, if_true]
    cases himg : images ("boot" ++ ".img") <;> simp [himg, appendLog]
  · simp only [flashPartition,
      show pyEndsWith "boot_ab" "_ab" = true by decide,
      show pyDropRight "boot_ab" 3 = "boot" by decide,
      Bool.false_eq_true, if_false, if_true]
    cases himg : images ("boot" ++ ".img") <;> simp [himg, appendLog]
  · simp only [flashPartition, hp, if_true]

/-- C4 witness: the amended theorem applied at the dual-slot token
`vbmeta_ab`. -/
theorem C4_witness :
    pyEndsWith "vbmeta_ab" "_ab" = true ∧
    (((flashPartition envAllOk imgsBoot true "boot" false St.init).1 = true ∧
      (flashPartition envAllOk imgsBoot true "boot" false St.init).2.trace = St.init.trace) ∧
    ((flashPartition envAllOk imgsBoot true "boot_a" false St.init).1 = true ∧
      (flashPartition envAllOk imgsBoot true "boot_a" false St.init).2.trace = St.init.trace) ∧
    ((flashPartition envAllOk imgsBoot true "boot_b" false St.init).1 = true ∧
      (flashPartition envAllOk imgsBoot true "boot_b" false St.init).2.trace = St.init.trace) ∧
    ((flashPartition envAllOk imgsBoot true "boot_ab" false St.init).1 = true ∧
      (flashPartition envAllOk imgsBoot true "boot_ab" false St.init).2.trace = St.init.trace) ∧
    flashPartition envAllOk imgsBoot true "vbmeta_ab" true St.init =
      flashPartition envAllOk imgsBoot false "vbmeta_ab" true St.init) :=
  ⟨by decide,
    C4_keep_root_scope envAllOk imgsBoot false St.init "vbmeta_ab" (by decide)⟩

theorem threadFlashOne_fst (env : Env) (cmd : List String) (label pfx : String) (st : St) :
    (threadFlashOne env cmd label pfx st).1 = outcomeNotFailed (env st.trace.length cmd) := by
  simp only [threadFlashOne, rawRun]
  cases env st.trace.length cmd <;> simp [outcomeNotFailed]
  split <;> rfl

theorem threadFlashOne_trace (env : Env) (cmd : List String) (label pfx : String) (st : St) :
    (threadFlashOne env cmd label pfx st).2.trace = st.trace ++ [cmd] := by
  simp only [threadFlashOne, rawRun]
  cases env st.trace.length cmd <;> simp [appendLog_trace]
  split <;> rfl

/-- C1 counterexample: flashing `vbmeta_ab` *with* AVB-disable on the UI path
when the slot-`a` write fails (device answers every command with a non-zero
exit).  The claim says the failure is logged and the other slot and the rest
of the plan still run; in fact `_flash_partition` returns `False` after the
single slot-`a` command (slot `b` is never attempted) and
`_run_flash_plan` aborts the plan — the following `set_active` step is never
issued. -/
theorem C1_counterexample :
    (flashPartition envAllFail imgsVbmeta false "vbmeta_ab" true St.init).1 = false ∧
    (flashPartition envAllFail imgsVbmeta false "vbmeta_ab" true St.init).2.trace =
      [["--disable-verity", "--disable-verification", "flash", "vbmeta_a", "vbmeta.img"]] ∧
    (runStepsUI envAllFail imgsVbmeta false false flagOn 0
        [Step.flash "vbmeta_ab" true none, Step.setSlot "a"] St.init).1 =
      RunOutcome.flashFailed "vbmeta_ab" ∧
    (runStepsUI envAllFail imgsVbmeta false false flagOn 0
        [Step.flash "vbmeta_ab" true none, Step.setSlot "a"] St.init).2.trace =
      [["--disable-verity", "--disable-verification", "flash", "vbmeta_a", "vbmeta.img"]] := by
  decide

/-- C1 (amended): the dual-slot failure policy is not keyed on AVB-disable
but on the executor path.  On the UI path (`_flash_partition` +
`_run_flash_plan`) a failed slot write aborts the remaining slot and the plan
*regardless* of AVB-disable; on the threaded path
(`_run_flash_plan_in_thread`) failed slot writes are logged, both slots are
attempted, and the plan continues — again regardless of AVB-disable. -/
theorem C1_dual_slot_policy (env : Env) (images : Images) (kr w : Bool)
    (fl : Nat → Bool) (i : Nat) (p imgPath oA oB : String) (avb : Bool)
    (m : Option String) (rest : List Step) (st : St)
    (hp : pyEndsWith p "_ab" = true)
    (hfl : fl i = true) :
    (images (pyDropRight p 3 ++ ".img") = some imgPath →
      outcomeOk (env st.trace.length
        (avbFlags ++ ["flash", pyDropRight p 3 ++ "_" ++ "a", imgPath])) = false →
      (flashPartition env images kr p true st).1 = false ∧
      (flashPartition env images kr p true st).2.trace =
        st.trace ++ [avbFlags ++ ["flash", pyDropRight p 3 ++ "_" ++ "a", imgPath]]) ∧
    (images (pyDropRight p 3 ++ ".img") = some imgPath →
      ¬(kr = true ∧ pyDropRight p 3 = "boot") →
      outcomeOk (env st.trace.length
        ["flash", pyDropRight p 3 ++ "_" ++ "a", imgPath]) = false →
      (flashPartition env images kr p false st).1 = false ∧
      (flashPartition env images kr p false st).2.trace =
        st.trace ++ [["flash", pyDropRight p 3 ++ "_" ++ "a", imgPath]]) ∧
    ((flashPartition env images kr p avb st).1 = false →
      runStepsUI env images kr w fl i (Step.flash p avb m :: rest) st =
        (RunOutcome.flashFailed p,
          appendLog ("错误: 刷写 " ++ p ++ " 失败") (flashPartition env images kr p avb st).2)) ∧
    (images (pyLower (pyDropRight p 3 ++ ".img")) = some imgPath →
      env st.trace.length (["flash", pyDropRight p 3 ++ "_a", imgPath] ++
        (if avb = true then avbFlags else [])) = CmdOutcome.completed false oA →
      env (st.trace.length + 1) (["flash", pyDropRight p 3 ++ "_b", imgPath] ++
        (if avb = true then avbFlags else [])) = CmdOutcome.completed false oB →
      (threadFlashStep env images p avb st).1 = true ∧
      (threadFlashStep env images p avb st).2.trace =
        st.trace ++ [["flash", pyDropRight p 3 ++ "_a", imgPath] ++
            (if avb = true then avbFlags else []),
          ["flash", pyDropRight p 3 ++ "_b", imgPath] ++
            (if avb = true then avbFlags else [])] ∧
      runStepsThread env images w (Step.flash p avb m :: rest) st =
        runStepsThread env images w rest (threadFlashStep env images p avb st).2) := by
  refine ⟨?_, ?_, ?_, ?_⟩
  · intro h1 h2
    simp only [flashPartition, hp, if_true, flashAbAvbLoop, h1]
    rw [runFastboot_eq]
    simp only [appendLog_trace]
    rw [h2]
    simp [runFastboot_trace, appendLog_trace]
  · intro h1 hkr h2
    simp only [flashPartition, hp, if_true, h1]
    rw [if_neg hkr]
    simp only [flashAbLoop]
    rw [runFastboot_eq]
    rw [h2]
    simp [runFastboot_trace]
  · intro hfail
    rcases hv : flashPartition env images kr p avb st with ⟨ok, st1⟩
    have hok : ok = false := by rw [hv] at hfail; exact hfail
    subst hok
    simp [runStepsUI, hfl, hv]
  · intro h1 hA hB
    rcases hAB : threadFlashOne env
        (["flash", pyDropRight p 3 ++ "_a", imgPath] ++ (if avb = true then avbFlags else []))
        (pyDropRight p 3 ++ "_a") "  " (appendLog ("刷写 " ++ p) st) with ⟨okA, stA⟩
    have hokA : okA = true := by
      have hf := threadFlashOne_fst env
        (["flash", pyDropRight p 3 ++ "_a", imgPath] ++ (if avb = true then avbFlags else []))
        (pyDropRight p 3 ++ "_a") "  " (appendLog ("刷写 " ++ p) st)
      rw [hAB, appendLog_trace, hA] at hf
      exact hf
    subst hokA
    have htrA : stA.trace = st.trace ++
        [["flash", pyDropRight p 3 ++ "_a", imgPath] ++ (if avb = true then avbFlags else [])] := by
      have ht := threadFlashOne_trace env
        (["flash", pyDropRight p 3 ++ "_a", imgPath] ++ (if avb = true then avbFlags else []))
        (pyDropRight p 3 ++ "_a") "  " (appendLog ("刷写 " ++ p) st)
      rw [hAB, appendLog_trace] at ht
      exact ht
    rcases hBB : threadFlashOne env
        (["flash", pyDropRight p 3 ++ "_b", imgPath] ++ (if avb = true then avbFlags else []))
        (pyDropRight p 3 ++ "_b") "  " stA with ⟨okB, stB⟩
    have hokB : okB = true := by
      have hf := threadFlashOne_fst env
        (["flash", pyDropRight p 3 ++ "_b", imgPath] ++ (if avb = true then avbFlags else []))
        (pyDropRight p 3 ++ "_b") "  " stA
      rw [hBB] at hf
      rw [show stA.trace.length = st.trace.length + 1 by simp [htrA]] at hf
      rw [hB] at hf
      exact hf
    subst hokB
    have htrB : stB.trace = st.trace ++
        [["flash", pyDropRight p 3 ++ "_a", imgPath] ++ (if avb = true then avbFlags else []),
          ["flash", pyDropRight p 3 ++ "_b", imgPath] ++ (if avb = true then avbFlags else [])] := by
      have ht := threadFlashOne_trace env
        (["flash", pyDropRight p 3 ++ "_b", imgPath] ++ (if avb = true then avbFlags else []))
        (pyDropRight p 3 ++ "_b") "  " stA
      rw [hBB, htrA] at ht
      rw [ht]
      simp [List.append_assoc]
    have hstep : threadFlashStep env images p avb st = (true, stB) := by
      simp only [threadFlashStep, hp, if_true, h1]
      rw [hAB]
      exact hBB
    refine ⟨by rw [hstep], by rw [hstep]; exact htrB, ?_⟩
    simp only [runStepsThread]
    rw [hstep]

/-- C1 witness: the amended policy theorem applied to the token `vbmeta_ab`
with `vbmeta.img` present and a device failing every command. -/
theorem C1_witness :
    pyEndsWith "vbmeta_ab" "_ab" = true ∧
    ((imgsVbmeta (pyDropRight "vbmeta_ab" 3 ++ ".img") = some "vbmeta.img" →
      outcomeOk (envAllFail St.init.trace.length
        (avbFlags ++ ["flash", pyDropRight "vbmeta_ab" 3 ++ "_" ++ "a", "vbmeta.img"])) = false →
      (flashPartition envAllFail imgsVbmeta false "vbmeta_ab" true St.init).1 = false ∧
      (flashPartition envAllFail imgsVbmeta false "vbmeta_ab" true St.init).2.trace =
        St.init.trace ++
          [avbFlags ++ ["flash", pyDropRight "vbmeta_ab" 3 ++ "_" ++ "a", "vbmeta.img"]]) ∧
    (imgsVbmeta (pyDropRight "vbmeta_ab" 3 ++ ".img") = some "vbmeta.img" →
      ¬(false = true ∧ pyDropRight "vbmeta_ab" 3 = "boot") →
      outcomeOk (envAllFail St.init.trace.length
        ["flash", pyDropRight "vbmeta_ab" 3 ++ "_" ++ "a", "vbmeta.img"]) = false →
      (flashPartition envAllFail imgsVbmeta false "vbmeta_ab" false St.init).1 = false ∧
      (flashPartition envAllFail imgsVbmeta false "vbmeta_ab" false St.init).2.trace =
        St.init.trace ++ [["flash", pyDropRight "vbmeta_ab" 3 ++ "_" ++ "a", "vbmeta.img"]]) ∧
    ((flashPartition envAllFail imgsVbmeta false "vbmeta_ab" true St.init).1 = false →
      runStepsUI envAllFail imgsVbmeta false false flagOn 0
          (Step.flash "vbmeta_ab" true none :: []) St.init =
        (RunOutcome.flashFailed "vbmeta_ab",
          appendLog ("错误: 刷写 " ++ "vbmeta_ab" ++ " 失败")
            (flashPartition envAllFail imgsVbmeta false "vbmeta_ab" true St.init).2)) ∧
    (imgsVbmeta (pyLower (pyDropRight "vbmeta_ab" 3 ++ ".img")) = some "vbmeta.img" →
      envAllFail St.init.trace.length
          (["flash", pyDropRight "vbmeta_ab" 3 ++ "_a", "vbmeta.img"] ++
            (if true = true then avbFlags else [])) = CmdOutcome.completed false "" →
      envAllFail (St.init.trace.length + 1)
          (["flash", pyDropRight "vbmeta_ab" 3 ++ "_b", "vbmeta.img"] ++
            (if true = true then avbFlags else [])) = CmdOutcome.completed false "" →
      (threadFlashStep envAllFail imgsVbmeta "vbmeta_ab" true St.init).1 = true ∧
      (threadFlashStep envAllFail imgsVbmeta "vbmeta_ab" true St.init).2.trace =
        St.init.trace ++
          [["flash", pyDropRight "vbmeta_ab" 3 ++ "_a", "vbmeta.img"] ++
              (if true = true then avbFlags else []),
            ["flash", pyDropRight "vbmeta_ab" 3 ++ "_b", "vbmeta.img"] ++
              (if true = true then avbFlags else [])] ∧
      runStepsThread envAllFail imgsVbmeta false
          (Step.flash "vbmeta_ab" true none :: []) St.init =
        runStepsThread envAllFail imgsVbmeta false []
          (threadFlashStep envAllFail imgsVbmeta "vbmeta_ab" true St.init).2)) :=
  ⟨by decide,
    C1_dual_slot_policy envAllFail imgsVbmeta false false flagOn 0 "vbmeta_ab" "vbmeta.img"
      "" "" true none [] St.init (by decide) rfl⟩

end Tobatools
